import Mathlib

/-
Verification of the Cividis Theme Engine (src/cividis-theme.js, with the
duplicated engine variants in src/unnamed/part_005).

The embedding below translates the relevant parts of the client script:
JSON-like values and JavaScript truthiness, the color normalizer, the
palette mapper (createIntelligentMapping), the theme fetcher with its retry
loop (fetchThemeData), response validation (validateThemeData), the CSS
variable applier (applyTheme) and fetch-and-apply composition
(fetchAndApplyTheme), the CTA button lifecycle (createCTAButton, destroy,
addResizeListener), the API styling-rule injector
(applyIntelligentStylingRules), and the fetch options records.

Time (retry delays, the 10s bound) is not modeled; the retry loop is modeled
as the sequential loop it is.  Console logging is not modeled.
-/

namespace Cividis

/-- JSON-like JavaScript values flowing through the engine. -/
inductive Json where
  | null : Json
  | bool (b : Bool) : Json
  | num (n : Int) : Json
  | str (s : String) : Json
  | arr (elems : List Json) : Json
  | obj (fields : List (String × Json)) : Json

/-- JavaScript truthiness of a value (used by the `if (x)` tests in the script).
null and undefined are falsy; 0, NaN and the empty string are falsy; arrays and
objects are truthy. -/
def jsTruthy : Json → Bool
  | Json.null => false
  | Json.bool b => b
  | Json.num n => n != 0
  | Json.str s => s != ""
  | Json.arr _ => true
  | Json.obj _ => true

/-- JavaScript `typeof x === "object"` test: true for objects, arrays and null. -/
def typeofObject : Json → Bool
  | Json.null => true
  | Json.arr _ => true
  | Json.obj _ => true
  | _ => false

/-- Property access `data[name]`: defined only on objects; on every other value
the properties the engine reads come back undefined, modeled as none. -/
def getField : Json → String → Option Json
  | Json.obj fields, name => (fields.find? (fun p => p.1 == name)).map (fun p => p.2)
  | _, _ => none

/-- Code points removed by JavaScript String.prototype.trim: WhiteSpace and
LineTerminator (tab, LF, VT, FF, CR, space, NBSP, the Unicode space
separators, LS, PS, and the BOM). -/
def isJsWhitespace (c : Char) : Bool :=
  c.toNat == 9 || c.toNat == 10 || c.toNat == 11 || c.toNat == 12 || c.toNat == 13 ||
  c.toNat == 32 || c.toNat == 160 || c.toNat == 5760 ||
  (8192 ≤ c.toNat && c.toNat ≤ 8202) ||
  c.toNat == 8232 || c.toNat == 8233 || c.toNat == 8239 || c.toNat == 8287 ||
  c.toNat == 12288 || c.toNat == 65279

/-- JavaScript `color.trim()`. -/
def jsTrim (s : String) : String :=
  String.mk (((s.data.dropWhile isJsWhitespace).reverse.dropWhile isJsWhitespace).reverse)

/-- One character of the class [0-9A-Fa-f] from the regex in normalizeColor. -/
def isHexDigit (c : Char) : Bool :=
  (48 ≤ c.toNat && c.toNat ≤ 57) || (65 ≤ c.toNat && c.toNat ≤ 70) ||
  (97 ≤ c.toNat && c.toNat ≤ 102)

/-- The test of the anchored regex in normalizeColor
(six hex digits optionally followed by two more). -/
def matchesBareHex (s : String) : Bool :=
  (s.length == 6 || s.length == 8) && s.data.all isHexDigit

/-- normalizeColor (src/cividis-theme.js lines 380-394): non-strings are
returned unchanged; strings are trimmed, and a trimmed bare 6 or 8 digit hex
string gets a leading #; every other trimmed string is returned as trimmed. -/
def normalizeColor : Json → Json
  | Json.str s =>
      let c := jsTrim s
      if matchesBareHex c then Json.str ("#" ++ c) else Json.str c
  | v => v

/-- One entry of the fixed cividisColors table in createIntelligentMapping. -/
structure CividisSlot where
  key : String
  color : String
  priority : Nat
deriving DecidableEq

/-- The fixed cividisColors table (src/cividis-theme.js lines 121-128). -/
def cividisColors : List CividisSlot :=
  [⟨"primary", "#00204c", 1⟩, ⟨"secondary", "#7f7c75", 2⟩, ⟨"accent", "#bbaf71", 3⟩,
   ⟨"success", "#0a376d", 4⟩, ⟨"warning", "#ffe945", 5⟩, ⟨"info", "#37476b", 6⟩]

/-- The slot keys of cividisColors in priority order. -/
def slotKeys : List String := cividisColors.map (fun slot => slot.key)

/-- The overflow target slots for detected colors of rank beyond six
(src/cividis-theme.js line 144). -/
def extraTargets : List String := ["info", "accent", "secondary"]

/-- The overflow forEach of createIntelligentMapping (lines 146-152), recorded
as the association of each extra detected color with the slot key
extraTargets[index % extraTargets.length]; idx is the running forEach index. -/
def overflowAssign : Nat → List String → List (String × String)
  | _, [] => []
  | idx, c :: rest =>
      (c, extraTargets.getD (idx % extraTargets.length) "") :: overflowAssign (idx + 1) rest

/-- The rank-to-slot association performed by createIntelligentMapping
(lines 120-163): the first loop pairs detected color i (i < min(length, 6))
with cividisColors[i], the overflow loop pairs the colors sliced from index 6
with the cycled extraTargets slot. -/
def intelligentAssignment (cs : List String) : List (String × String) :=
  (List.zipWith (fun c (slot : CividisSlot) => (c, slot.key)) (cs.take 6) cividisColors)
    ++ overflowAssign 0 (cs.drop 6)

/-- The CSS variable writes of the overflow forEach: each extra color writes the
fixed Cividis color of its cycled target slot into the mapping object. -/
def overflowWrites : Nat → List String → List (String × Json)
  | _, [] => []
  | idx, _ :: rest =>
      let key := extraTargets.getD (idx % extraTargets.length) ""
      ("--theme-" ++ key,
        Json.str (((cividisColors.find? (fun slot => slot.key == key)).map
          (fun slot => slot.color)).getD ""))
        :: overflowWrites (idx + 1) rest

/-- The sequence of writes createIntelligentMapping performs on its mapping
object, in program order: the first loop, the overflow loop, then the five
fixed neutral variables (lines 156-160). -/
def intelligentMappingWrites (cs : List String) : List (String × Json) :=
  (List.zipWith (fun _ (slot : CividisSlot) =>
      ("--theme-" ++ slot.key, Json.str slot.color)) (cs.take 6) cividisColors)
    ++ overflowWrites 0 (cs.drop 6)
    ++ [("--theme-background", Json.str "#ffffff"), ("--theme-surface", Json.str "#f8f9fa"),
        ("--theme-text", Json.str "#1b1b1b"), ("--theme-text-muted", Json.str "#353a45"),
        ("--theme-border", Json.str "#e0e0e0")]

/-- Outcome of one network attempt, as observed inside the try block of
fetchThemeData: a rejected fetch, a non-2xx response, a 2xx response whose
body fails to parse as JSON, or a 2xx response with a parsed body. -/
inductive AttemptResult where
  | netError (msg : String) : AttemptResult
  | httpError (status : Nat) (statusText : String) : AttemptResult
  | badJson (msg : String) : AttemptResult
  | okBody (data : Json) : AttemptResult

/-- validateThemeData (src/cividis-theme.js lines 307-323).  The loop over the
required colors only logs warnings and is non-fatal, so it is omitted. -/
def validateThemeData (data : Json) : Except String Unit :=
  if !(jsTruthy data && typeofObject data) then
    Except.error "Invalid theme data: must be an object"
  else
    match getField data "colors" with
    | none => Except.error "Invalid theme data: colors object required"
    | some colors =>
        if !(jsTruthy colors && typeofObject colors) then
          Except.error "Invalid theme data: colors object required"
        else Except.ok ()

/-- The body of one iteration of the while loop in fetchThemeData: a thrown
transport error, a thrown HTTP error, a body parse error, or validation of
the parsed body; note that a validation failure is thrown inside the same
try block and is therefore caught by the same catch as transport errors. -/
def attemptOnce : AttemptResult → Except String Json
  | AttemptResult.netError m => Except.error m
  | AttemptResult.httpError status statusText =>
      Except.error ("HTTP " ++ toString status ++ ": " ++ statusText)
  | AttemptResult.badJson m => Except.error m
  | AttemptResult.okBody d =>
      match validateThemeData d with
      | Except.error e => Except.error e
      | Except.ok _ => Except.ok d

/-- The while loop of fetchThemeData (lines 274-299), with fuel equal to the
remaining attempts; returns the number of attempts performed together with
the returned data or the thrown lastError. -/
def fetchLoop (network : Nat → AttemptResult) :
    Nat → Nat → Option String → Nat × Except String Json
  | 0, attempt, lastError => (attempt, Except.error (lastError.getD "null"))
  | fuel + 1, attempt, lastError =>
      match attemptOnce (network attempt) with
      | Except.ok data => (attempt + 1, Except.ok data)
      | Except.error e =>
          let _ := lastError
          fetchLoop network fuel (attempt + 1) (some e)

/-- maxAttempts = this.config.retryAttempts || 3 (line 272): a zero (falsy)
configured value falls back to 3. -/
def effectiveMaxAttempts (retryAttempts : Nat) : Nat :=
  if retryAttempts = 0 then 3 else retryAttempts

/-- fetchThemeData (lines 269-302) for a given configured retryAttempts value:
the attempt counter starts at 0 and lastError starts null. -/
def fetchThemeData (network : Nat → AttemptResult) (retryAttempts : Nat) :
    Nat × Except String Json :=
  fetchLoop network (effectiveMaxAttempts retryAttempts) 0 none

/-- The fixed colorMap of transformToCSSVariables (lines 356-366). -/
def colorMap : List (String × String) :=
  [("primary", "--theme-primary"), ("secondary", "--theme-secondary"),
   ("accent", "--theme-accent"), ("success", "--theme-success"),
   ("warning", "--theme-warning"), ("info", "--theme-info"),
   ("background", "--theme-background"), ("text", "--theme-text"),
   ("border", "--theme-border")]

/-- transformToCSSVariables (lines 352-375): for each colorMap entry, if
colors[apiKey] is truthy the normalized value is recorded under the CSS
variable name; absent or falsy entries are skipped. -/
def transformToCSSVariables (colors : Json) : List (String × Json) :=
  colorMap.foldl (fun cssVars p =>
    match getField colors p.1 with
    | some v => if jsTruthy v then cssVars ++ [(p.2, normalizeColor v)] else cssVars
    | none => cssVars) []

/-- The custom properties visible on the document root element. -/
def Root := String → Option Json

/-- root.style.setProperty(variable, value). -/
def setProp (root : Root) (name : String) (value : Json) : Root :=
  fun k => if k = name then some value else root k

/-- The for-of loop of applyTheme (lines 458-461): one setProperty per entry,
in order. -/
def applyVars (root : Root) (vars : List (String × Json)) : Root :=
  vars.foldl (fun r p => setProp r p.1 p.2) root

/-- The engine state touched by the fetch-and-apply path: the root custom
properties, the dispatched window events (by name, in order), and
this.currentTheme. -/
structure ThemeState where
  root : Root
  events : List String
  currentTheme : Option Json

/-- applyTheme (lines 455-470): writes every entry of the given set onto the
root, then dispatches cividis-theme-applied.  The trailing
reapplyCTAGradient call restyles the CTA button element inline and touches
no root variable, so it does not appear in this state. -/
def applyThemeSt (st : ThemeState) (cssVariables : List (String × Json)) : ThemeState :=
  { st with root := applyVars st.root cssVariables,
            events := st.events ++ ["cividis-theme-applied"] }

/-- handleError as defined in the duplicated engine copies of this class
(src/unnamed/part_005 lines 651-664): it logs and dispatches a single
cividis-theme-error event; src/cividis-theme.js invokes this.handleError
without defining it in that copy. -/
def handleErrorSt (st : ThemeState) : ThemeState :=
  { st with events := st.events ++ ["cividis-theme-error"] }

/-- fetchAndApplyTheme (lines 328-347).  On success the colors object is
transformed and applied and currentTheme is replaced; any styling_rules are
injected into a stylesheet element (modeled separately below) and write no
root variable.  The whole body sits in one try whose catch forwards to
handleError, so the result is always returned normally: the Except layer
records that no exception escapes. -/
def fetchAndApplyTheme (network : Nat → AttemptResult) (retryAttempts : Nat)
    (st : ThemeState) : Except String ThemeState :=
  match (fetchThemeData network retryAttempts).2 with
  | Except.ok themeData =>
      let cssVariables := transformToCSSVariables ((getField themeData "colors").getD Json.null)
      let st1 := applyThemeSt st cssVariables
      Except.ok { st1 with currentTheme := some themeData }
  | Except.error _ => Except.ok (handleErrorSt st)

/-- Classifies the attempt outcomes the C1 claim quantifies over:
non-2xx status or network error. -/
def isTransportFailure : AttemptResult → Bool
  | AttemptResult.netError _ => true
  | AttemptResult.httpError _ _ => true
  | _ => false

/-- The error message a failed transport attempt produces inside the loop. -/
def transportErrorMsg : AttemptResult → String
  | AttemptResult.netError m => m
  | AttemptResult.httpError status statusText =>
      "HTTP " ++ toString status ++ ": " ++ statusText
  | _ => ""

/-- The message validateThemeData produces for a body whose colors field is
absent: the first check fires for non-objects and falsy values, the second
for objects without a usable colors object. -/
def missingColorsMsg (d : Json) : String :=
  if jsTruthy d && typeofObject d then "Invalid theme data: colors object required"
  else "Invalid theme data: must be an object"

/-- The reserved identifier of the CTA button element. -/
def ctaId : String := "cividis-cta-button"

/-- A DOM element as far as the CTA claims need it: an object identity and the
value of its id attribute. -/
structure Elem where
  ident : Nat
  idAttr : String
deriving DecidableEq

/-- The engine state touched by the CTA lifecycle: the elements present in the
document, a fresh-identity counter, this.ctaButton, this.resizeListener, and
the identities of the resize handlers currently registered on window. -/
structure CtaState where
  docElems : List Elem
  fresh : Nat
  ctaButton : Option Nat
  resizeListener : Option Nat
  windowListeners : List Nat
deriving DecidableEq

/-- The guarded removals the engine performs: if a reference is held, the
referenced element is removed from the document (element.remove()). -/
def removeRef (doc : List Elem) : Option Nat → List Elem
  | some r => doc.filter (fun (e : Elem) => e.ident != r)
  | none => doc

/-- The guarded removeEventListener step: if a handler reference is held, that
handler is dropped from the window listener list. -/
def removeListener (ws : List Nat) : Option Nat → List Nat
  | some l => ws.filter (fun x => x != l)
  | none => ws

/-- addResizeListener (src/cividis-theme.js lines 763-786): removes the
previously registered handler if any, then registers a fresh one and stores
it in this.resizeListener. -/
def addResizeListenerSt (st : CtaState) : CtaState :=
  ⟨st.docElems, st.fresh + 1, st.ctaButton, some st.fresh,
    removeListener st.windowListeners st.resizeListener ++ [st.fresh]⟩

/-- createCTAButton (lines 622-657): if this.ctaButton is set, that element is
removed from the document; a new button element with the reserved id is then
created, inserted (insertCTAButton appends it inside a header or, failing
that, to the body, so it ends up in the document either way), and
addResizeListener is called.  No check against document.getElementById is
performed in this copy of the engine. -/
def createCTAButtonSt (st : CtaState) : CtaState :=
  addResizeListenerSt
    ⟨removeRef st.docElems st.ctaButton ++ [⟨st.fresh, ctaId⟩], st.fresh + 1, some st.fresh,
      st.resizeListener, st.windowListeners⟩

/-- destroy (lines 1171-1179): removes the referenced button element and clears
this.ctaButton (this.isInitialized and this.currentTheme are also reset,
which this record does not carry).  Nothing is done to the window resize
listener. -/
def destroySt (st : CtaState) : CtaState :=
  ⟨removeRef st.docElems st.ctaButton,
    st.fresh, none, st.resizeListener, st.windowListeners⟩

/-- The number of elements in the document carrying the reserved CTA id. -/
def countCta (st : CtaState) : Nat :=
  (st.docElems.filter (fun e => e.idAttr == ctaId)).length

/-- One named styling rule from the API payload, as read by
applyIntelligentStylingRules (lines 1040-1059). -/
structure StylingRule where
  selector : Option String
  background : Option String
  textColor : Option String
  borderColor : Option String
deriving DecidableEq

/-- One generated declaration line: emitted only when the field is truthy. -/
def cssDecl (property : String) (v : Option String) : String :=
  match v with
  | some s => if s == "" then "" else "  " ++ property ++ ": " ++ s ++ " !important;\n"
  | none => ""

/-- The CSS block one rule contributes in applyIntelligentStylingRules: the
API-supplied selector is used verbatim as the rule target; rules with a
falsy selector contribute nothing. -/
def ruleBlock (rule : StylingRule) : String :=
  match rule.selector with
  | some sel =>
      if sel == "" then ""
      else sel ++ " \x7b\n" ++ cssDecl "background" rule.background
        ++ cssDecl "color" rule.textColor
        ++ cssDecl "border-color" rule.borderColor ++ "\x7d\n\n"
  | none => ""

/-- The full stylesheet text applyIntelligentStylingRules (lines 1021-1068)
writes into the cividis-intelligent-styling style element: the concatenation
of the per-rule blocks over Object.entries of the rules mapping. -/
def applyIntelligentStylingCSS (rules : List (String × StylingRule)) : String :=
  rules.foldl (fun cssRules p => cssRules ++ ruleBlock p.2) ""

/-- The fetch options record: the standard members the engine sets, the
nonstandard timeout member it passes, and the abort signal member (none when
absent from the options object). -/
structure FetchInit where
  method : String
  headers : List (String × String)
  timeout : Option Nat
  signal : Option Nat
deriving DecidableEq

/-- The options object fetchThemeData passes to fetch
(src/cividis-theme.js lines 277-284): method, two headers, a timeout member
of 10000, and no signal. -/
def themeFetchInit : FetchInit :=
  ⟨"GET", [("Content-Type", "application/json"), ("Accept", "application/json")],
    some 10000, none⟩

/-- The options object of the fixed engine variant
(src/unnamed/part_005 lines 1293-1302), which creates an AbortController,
arms a 10 second setTimeout calling controller.abort(), and passes
controller.signal; its header comment lists "Use AbortController for fetch
timeout" among its fixes. -/
def fixedThemeFetchInit (signalId : Nat) : FetchInit :=
  ⟨"GET", [("Content-Type", "application/json"), ("Accept", "application/json")],
    none, some signalId⟩

/-- The RequestInit members defined by the WHATWG fetch standard, which is
what a browser consults when reading the options object; members outside
this list, such as timeout, are ignored by fetch. -/
def standardFetchInitMembers : List String :=
  ["method", "headers", "body", "mode", "credentials", "cache", "redirect",
   "referrer", "referrerPolicy", "integrity", "keepalive", "signal",
   "window", "duplex", "priority"]

/-- An empty initial engine state for concrete runs. -/
def emptyThemeState : ThemeState := ⟨fun _ => none, [], none⟩

/-- An empty initial CTA state for concrete runs. -/
def emptyCtaState : CtaState := ⟨[], 0, none, none, []⟩

/-- A document that already contains a foreign element carrying the reserved
CTA id, not referenced by the engine. -/
def foreignCtaState : CtaState := ⟨[⟨0, ctaId⟩], 1, none, none, []⟩

/-- A palette body that lacks the colors key. -/
def missingColorsBody : Json := Json.obj [("success", Json.bool true)]

/-- A network that answers HTTP 500 on every attempt. -/
def http500Network : Nat → AttemptResult :=
  fun _ => AttemptResult.httpError 500 "Internal Server Error"

/-- A network that answers 200 on every attempt with a body lacking colors. -/
def badBodyNetwork : Nat → AttemptResult :=
  fun _ => AttemptResult.okBody missingColorsBody

/-- A styling-rule mapping as the API could send it: one rule targeting every
button element, with no mention of the reserved CTA identifier. -/
def c8Rules : List (String × StylingRule) :=
  [("highlight_buttons", ⟨some "button", some "red", none, none⟩)]

/-! ### Helper lemmas -/

theorem aux_hex_not_ws {c : Char} (h : isHexDigit c = true) : isJsWhitespace c = false := by
  simp only [isHexDigit, Bool.or_eq_true, Bool.and_eq_true, decide_eq_true_eq] at h
  simp only [isJsWhitespace, Bool.or_eq_false_iff, Bool.and_eq_false_iff,
    beq_eq_false_iff_ne, ne_eq, decide_eq_false_iff_not, not_le]
  omega

theorem aux_dropWhile_of_no_ws {l : List Char}
    (h : ∀ c ∈ l, isJsWhitespace c = false) : l.dropWhile isJsWhitespace = l := by
  cases l with
  | nil => rfl
  | cons a t => simp [List.dropWhile_cons, h a (List.mem_cons_self a t)]

theorem aux_jsTrim_of_hex {s : String} (h : s.data.all isHexDigit = true) :
    jsTrim s = s := by
  have hmem : ∀ c ∈ s.data, isJsWhitespace c = false := by
    intro c hc
    exact aux_hex_not_ws (List.all_eq_true.mp h c hc)
  have h1 : s.data.dropWhile isJsWhitespace = s.data := aux_dropWhile_of_no_ws hmem
  have h2 : s.data.reverse.dropWhile isJsWhitespace = s.data.reverse :=
    aux_dropWhile_of_no_ws (by intro c hc; exact hmem c (List.mem_reverse.mp hc))
  unfold jsTrim
  rw [h1, h2, List.reverse_reverse]

end Cividis

namespace Cividis

/-- C6 counterexample: the input " red" is neither a bare hex string nor
returned unchanged; the normalizer trims it, so the output "red" differs
from the input, refuting the for-every-other-input-unchanged clause. -/
theorem c6_counterexample :
    normalizeColor (Json.str " red") = Json.str "red" ∧
    Json.str "red" ≠ Json.str " red" := by
  constructor
  · rfl
  · intro h
    injection h with h2
    exact absurd h2 (by decide)

/-- C6 amended: normalizeColor first trims JavaScript whitespace from a string
input; a bare 6 or 8 digit hex string (which contains no whitespace, hence is
unchanged by the trim) is returned with a leading #; every other string is
returned in trimmed form (so inputs with surrounding whitespace are not
returned unchanged); non-string values pass through unchanged. -/
theorem c6_normalizeColor_trims_then_prefixes (s : String) :
    (matchesBareHex s = true → normalizeColor (Json.str s) = Json.str ("#" ++ s)) ∧
    (matchesBareHex (jsTrim s) = false → normalizeColor (Json.str s) = Json.str (jsTrim s)) ∧
    (∀ v : Json, (∀ u : String, v ≠ Json.str u) → normalizeColor v = v) := by
  refine ⟨?_, ?_, ?_⟩
  · intro h
    have hall : s.data.all isHexDigit = true := by
      have := h
      simp only [matchesBareHex, Bool.and_eq_true] at this
      exact this.2
    have ht : jsTrim s = s := aux_jsTrim_of_hex hall
    simp [normalizeColor, ht, h]
  · intro h
    simp [normalizeColor, h]
  · intro v hv
    cases v with
    | str u => exact absurd rfl (hv u)
    | null => rfl
    | bool b => rfl
    | num n => rfl
    | arr xs => rfl
    | obj fields => rfl

/-- Witness for the C6 theorem at concrete inputs: a bare hex string gets the
prefix, and a var() reference passes through (already trimmed). -/
theorem c6_witness :
    normalizeColor (Json.str "00204c") = Json.str "#00204c" ∧
    normalizeColor (Json.str "var(--x)") = Json.str "var(--x)" :=
  ⟨(c6_normalizeColor_trims_then_prefixes "00204c").1 (by decide),
   (c6_normalizeColor_trims_then_prefixes "var(--x)").2.1 (by decide)⟩

theorem aux_overflowAssign_getElem :
    ∀ (rest : List String) (idx j : Nat) (c : String), rest[j]? = some c →
      (overflowAssign idx rest)[j]?
        = some (c, extraTargets.getD ((idx + j) % extraTargets.length) "") := by
  intro rest
  induction rest with
  | nil =>
      intro idx j c hc
      simp at hc
  | cons a t ih =>
      intro idx j c hc
      cases j with
      | zero =>
          simp only [List.getElem?_cons_zero, Option.some.injEq] at hc
          subst hc
          simp [overflowAssign]
      | succ j =>
          rw [List.getElem?_cons_succ] at hc
          have := ih (idx + 1) j c hc
          have harith : idx + 1 + j = idx + (j + 1) := by omega
          rw [harith] at this
          simpa [overflowAssign] using this

/-- C4: the rank-to-slot association of createIntelligentMapping.  Rank i < 6
is assigned the i-th slot of the fixed priority list; every detected color of
rank beyond 6 is assigned extraTargets[(i - 6) % 3], with the last writer for
a slot among the overflow colors winning in the mapping object (the overflow
writes store the fixed Cividis color of the cycled target slot, so the
rank-to-slot association is the observable content).  In particular, for
eight detected colors the associations are primary, secondary, accent,
success, warning, info, info, accent, and the mapping object writes are the
fixed palette values plus the five neutrals. -/
theorem c4_intelligent_mapping_assignment (cs : List String) (i : Nat) (c : String) :
    (i < 6 → cs[i]? = some c →
      (intelligentAssignment cs)[i]? = some (c, slotKeys.getD i "")) ∧
    (6 ≤ i → cs[i]? = some c →
      (intelligentAssignment cs)[i]? = some (c, extraTargets.getD ((i - 6) % 3) "")) ∧
    (∀ c1 c2 c3 c4 c5 c6 c7 c8 : String,
      intelligentAssignment [c1, c2, c3, c4, c5, c6, c7, c8] =
        [(c1, "primary"), (c2, "secondary"), (c3, "accent"), (c4, "success"),
         (c5, "warning"), (c6, "info"), (c7, "info"), (c8, "accent")]) ∧
    (∀ c1 c2 c3 c4 c5 c6 c7 c8 : String,
      intelligentMappingWrites [c1, c2, c3, c4, c5, c6, c7, c8] =
        [("--theme-primary", Json.str "#00204c"), ("--theme-secondary", Json.str "#7f7c75"),
         ("--theme-accent", Json.str "#bbaf71"), ("--theme-success", Json.str "#0a376d"),
         ("--theme-warning", Json.str "#ffe945"), ("--theme-info", Json.str "#37476b"),
         ("--theme-info", Json.str "#37476b"), ("--theme-accent", Json.str "#bbaf71"),
         ("--theme-background", Json.str "#ffffff"), ("--theme-surface", Json.str "#f8f9fa"),
         ("--theme-text", Json.str "#1b1b1b"), ("--theme-text-muted", Json.str "#353a45"),
         ("--theme-border", Json.str "#e0e0e0")]) := by
  have hlen : ∀ {j : Nat} {d : String}, cs[j]? = some d → j < cs.length := by
    intro j d hj
    by_contra hno
    rw [List.getElem?_eq_none (by omega)] at hj
    exact Option.noConfusion hj
  refine ⟨?_, ?_, ?_, ?_⟩
  · intro h6 hc
    have hl : i < cs.length := hlen hc
    have hz : i < (List.zipWith (fun c (slot : CividisSlot) => (c, slot.key))
        (cs.take 6) cividisColors).length := by
      rw [List.length_zipWith, List.length_take]
      simp only [cividisColors, List.length_cons, List.length_nil]
      omega
    unfold intelligentAssignment
    rw [List.getElem?_append_left hz, List.getElem?_zipWith,
      List.getElem?_take_of_lt h6, hc]
    interval_cases i <;> rfl
  · intro h6 hc
    have hl : i < cs.length := hlen hc
    have hz : (List.zipWith (fun c (slot : CividisSlot) => (c, slot.key))
        (cs.take 6) cividisColors).length = 6 := by
      rw [List.length_zipWith, List.length_take]
      simp only [cividisColors, List.length_cons, List.length_nil]
      omega
    unfold intelligentAssignment
    rw [List.getElem?_append_right (by omega : (List.zipWith
        (fun c (slot : CividisSlot) => (c, slot.key)) (cs.take 6) cividisColors).length ≤ i), hz]
    have hdrop : (cs.drop 6)[i - 6]? = some c := by
      rw [List.getElem?_drop]
      have : 6 + (i - 6) = i := by omega
      rw [this, hc]
    have := aux_overflowAssign_getElem (cs.drop 6) 0 (i - 6) c hdrop
    rw [this]
    simp only [Nat.zero_add]
    rfl
  · intro c1 c2 c3 c4 c5 c6 c7 c8
    rfl
  · intro c1 c2 c3 c4 c5 c6 c7 c8
    rfl

/-- Witness for the C4 theorem at concrete inputs: rank 1 goes to primary and
rank 8 (index 7) goes to accent. -/
theorem c4_witness :
    (intelligentAssignment ["a", "b", "c", "d", "e", "f", "g", "h"])[0]?
        = some ("a", slotKeys.getD 0 "") ∧
    (intelligentAssignment ["a", "b", "c", "d", "e", "f", "g", "h"])[7]?
        = some ("h", extraTargets.getD ((7 - 6) % 3) "") :=
  ⟨(c4_intelligent_mapping_assignment ["a", "b", "c", "d", "e", "f", "g", "h"] 0 "a").1
      (by decide) (by decide),
   (c4_intelligent_mapping_assignment ["a", "b", "c", "d", "e", "f", "g", "h"] 7 "h").2.1
      (by decide) (by decide)⟩

theorem aux_fetchLoop_all_fail (network : Nat → AttemptResult) (errOf : Nat → String)
    (h : ∀ i, attemptOnce (network i) = Except.error (errOf i)) :
    ∀ (fuel : Nat), 1 ≤ fuel → ∀ (attempt : Nat) (lastError : Option String),
      fetchLoop network fuel attempt lastError
        = (attempt + fuel, Except.error (errOf (attempt + fuel - 1))) := by
  intro fuel
  induction fuel with
  | zero =>
      intro h1
      exact absurd h1 (by omega)
  | succ f ih =>
      intro _ attempt lastError
      cases f with
      | zero =>
          simp [fetchLoop, h attempt]
      | succ f2 =>
          have hstep := ih (by omega) (attempt + 1) (some (errOf attempt))
          have harith1 : attempt + 1 + (f2 + 1) = attempt + (f2 + 1 + 1) := by omega
          rw [harith1] at hstep
          simp only [fetchLoop, h attempt]
          exact hstep

theorem aux_effectiveMax_pos (retryAttempts : Nat) : 1 ≤ effectiveMaxAttempts retryAttempts := by
  unfold effectiveMaxAttempts
  split <;> omega

/-- C1: with retryAttempts = N (a positive integer, per the configuration data
model) and a network failing with a transport error (non-2xx or network error)
on every attempt, fetchThemeData performs exactly N attempts and throws the
error of the last attempt; fetchAndApplyTheme then catches it and dispatches
exactly one cividis-theme-error event, leaving the root variables (hence any
previously applied intelligent-mapping variables) and currentTheme untouched
and writing no fallback palette. -/
theorem c1_retry_exhaustion_no_fallback (network : Nat → AttemptResult) (N : Nat)
    (st : ThemeState) (hN : 1 ≤ N)
    (hfail : ∀ i, isTransportFailure (network i) = true) :
    (fetchThemeData network N).1 = N ∧
    (fetchThemeData network N).2 = Except.error (transportErrorMsg (network (N - 1))) ∧
    fetchAndApplyTheme network N st =
      Except.ok { st with events := st.events ++ ["cividis-theme-error"] } := by
  have herr : ∀ i, attemptOnce (network i) = Except.error (transportErrorMsg (network i)) := by
    intro i
    have hi := hfail i
    cases hni : network i with
    | netError m => rfl
    | httpError status statusText => rfl
    | badJson m => rw [hni] at hi; simp [isTransportFailure] at hi
    | okBody d => rw [hni] at hi; simp [isTransportFailure] at hi
  have hmax : effectiveMaxAttempts N = N := by
    unfold effectiveMaxAttempts
    rw [if_neg (by omega)]
  have hloop := aux_fetchLoop_all_fail network (fun i => transportErrorMsg (network i))
    herr N hN 0 none
  rw [Nat.zero_add] at hloop
  have h1 : fetchThemeData network N = (N, Except.error (transportErrorMsg (network (N - 1)))) := by
    unfold fetchThemeData
    rw [hmax, hloop]
  refine ⟨by rw [h1], by rw [h1], ?_⟩
  unfold fetchAndApplyTheme
  rw [h1]
  rfl

/-- Witness for the C1 theorem: three configured attempts against a network
answering HTTP 500 every time make exactly three attempts, surface the last
HTTP error, and add one error event to an empty state. -/
theorem c1_witness :
    (fetchThemeData http500Network 3).1 = 3 ∧
    (fetchThemeData http500Network 3).2
      = Except.error (transportErrorMsg (http500Network 2)) ∧
    fetchAndApplyTheme http500Network 3 emptyThemeState =
      Except.ok { emptyThemeState with
        events := emptyThemeState.events ++ ["cividis-theme-error"] } :=
  c1_retry_exhaustion_no_fallback http500Network 3 emptyThemeState (by decide) (fun _ => rfl)

/-- C2 counterexample: a 200 response whose body fails shape validation
(missing the colors object) on every attempt is retried: with 3 configured
attempts the loop performs 3 attempts, not the single attempt the claim
requires before surfacing the validation error. -/
theorem c2_counterexample :
    (fetchThemeData badBodyNetwork 3).1 = 3 ∧
    ¬ (fetchThemeData badBodyNetwork 3).1 = 1 := by
  constructor
  · rfl
  · intro h
    rw [show (fetchThemeData badBodyNetwork 3).1 = 3 from rfl] at h
    exact absurd h (by decide)

/-- C2 amended: validation failures are retried exactly like transport
failures: validateThemeData is invoked inside the same try block as the
transport steps, so a response body that fails validation on every attempt
counts as a failed attempt each time, the loop runs to the configured bound,
and the validation error of the final attempt is surfaced, after which
fetchAndApplyTheme dispatches a single error event and writes nothing. -/
theorem c2_validation_failures_are_retried (network : Nat → AttemptResult)
    (body : Nat → Json) (errOf : Nat → String) (N : Nat) (st : ThemeState)
    (hN : 1 ≤ N)
    (hbody : ∀ i, network i = AttemptResult.okBody (body i))
    (hval : ∀ i, validateThemeData (body i) = Except.error (errOf i)) :
    (fetchThemeData network N).1 = N ∧
    (fetchThemeData network N).2 = Except.error (errOf (N - 1)) ∧
    fetchAndApplyTheme network N st =
      Except.ok { st with events := st.events ++ ["cividis-theme-error"] } := by
  have herr : ∀ i, attemptOnce (network i) = Except.error (errOf i) := by
    intro i
    rw [hbody i]
    simp [attemptOnce, hval i]
  have hmax : effectiveMaxAttempts N = N := by
    unfold effectiveMaxAttempts
    rw [if_neg (by omega)]
  have hloop := aux_fetchLoop_all_fail network errOf herr N hN 0 none
  rw [Nat.zero_add] at hloop
  have h1 : fetchThemeData network N = (N, Except.error (errOf (N - 1))) := by
    unfold fetchThemeData
    rw [hmax, hloop]
  refine ⟨by rw [h1], by rw [h1], ?_⟩
  unfold fetchAndApplyTheme
  rw [h1]
  rfl

/-- Witness for the amended C2 theorem: a body missing the colors key is
retried three times and its validation error is what surfaces. -/
theorem c2_amended_witness :
    (fetchThemeData badBodyNetwork 3).1 = 3 ∧
    (fetchThemeData badBodyNetwork 3).2
      = Except.error "Invalid theme data: colors object required" ∧
    fetchAndApplyTheme badBodyNetwork 3 emptyThemeState =
      Except.ok { emptyThemeState with
        events := emptyThemeState.events ++ ["cividis-theme-error"] } :=
  c2_validation_failures_are_retried badBodyNetwork (fun _ => missingColorsBody)
    (fun _ => "Invalid theme data: colors object required") 3 emptyThemeState
    (by decide) (fun _ => rfl) (fun _ => rfl)

theorem aux_validate_missing_colors (d : Json) (h : getField d "colors" = none) :
    validateThemeData d = Except.error (missingColorsMsg d) := by
  unfold validateThemeData missingColorsMsg
  cases htr : jsTruthy d && typeofObject d with
  | false => simp
  | true => simp [h]

/-- C3: for every network whose responses all carry a body missing the colors
key, validation fails on each attempt with the colors-required (or
must-be-an-object) error, and fetchAndApplyTheme returns normally (the
try/catch converts the failure into a single dispatched error event, so no
exception escapes), with the root variables and currentTheme unchanged. -/
theorem c3_missing_colors_no_write_no_throw (network : Nat → AttemptResult)
    (body : Nat → Json) (N : Nat) (st : ThemeState)
    (hbody : ∀ i, network i = AttemptResult.okBody (body i))
    (hmiss : ∀ i, getField (body i) "colors" = none) :
    (∀ i, validateThemeData (body i) = Except.error (missingColorsMsg (body i))) ∧
    ∃ st2, fetchAndApplyTheme network N st = Except.ok st2 ∧
      st2.root = st.root ∧ st2.events = st.events ++ ["cividis-theme-error"] ∧
      st2.currentTheme = st.currentTheme := by
  have hv : ∀ i, validateThemeData (body i) = Except.error (missingColorsMsg (body i)) :=
    fun i => aux_validate_missing_colors (body i) (hmiss i)
  have herr : ∀ i, attemptOnce (network i)
      = Except.error (missingColorsMsg (body i)) := by
    intro i
    rw [hbody i]
    simp [attemptOnce, hv i]
  have hloop := aux_fetchLoop_all_fail network (fun i => missingColorsMsg (body i)) herr
    (effectiveMaxAttempts N) (aux_effectiveMax_pos N) 0 none
  refine ⟨hv, handleErrorSt st, ?_, rfl, rfl, rfl⟩
  unfold fetchAndApplyTheme fetchThemeData
  rw [hloop]

/-- Witness for the C3 theorem: the concrete body missing colors against three
configured attempts. -/
theorem c3_witness :
    (∀ _i : Nat, validateThemeData missingColorsBody
      = Except.error (missingColorsMsg missingColorsBody)) ∧
    ∃ st2, fetchAndApplyTheme badBodyNetwork 3 emptyThemeState = Except.ok st2 ∧
      st2.root = emptyThemeState.root ∧
      st2.events = emptyThemeState.events ++ ["cividis-theme-error"] ∧
      st2.currentTheme = emptyThemeState.currentTheme :=
  c3_missing_colors_no_write_no_throw badBodyNetwork (fun _ => missingColorsBody) 3
    emptyThemeState (fun _ => rfl) (fun _ => rfl)

/-- C5 counterexample: apply the intelligent mapping derived from two detected
colors, then apply the fetched set for a palette whose colors object only
contains primary.  The root then shows --theme-primary from the fetch but
--theme-surface from the earlier mapping, while the most recent complete set
written (the fetched one) contains no --theme-surface entry at all: the
visible set is a key-wise interleaving of the two sources, not the most
recent complete set. -/
theorem c5_counterexample :
    (applyVars (applyVars (fun _ => none) (intelligentMappingWrites ["#102030", "#405060"]))
        (transformToCSSVariables (Json.obj [("primary", Json.str "00204c")])))
        "--theme-primary" = some (Json.str "#00204c") ∧
    (applyVars (applyVars (fun _ => none) (intelligentMappingWrites ["#102030", "#405060"]))
        (transformToCSSVariables (Json.obj [("primary", Json.str "00204c")])))
        "--theme-surface" = some (Json.str "#f8f9fa") ∧
    (transformToCSSVariables (Json.obj [("primary", Json.str "00204c")])).find?
        (fun p => p.1 == "--theme-surface") = none ∧
    (applyVars (applyVars (fun _ => none) (intelligentMappingWrites ["#102030", "#405060"]))
        (transformToCSSVariables (Json.obj [("primary", Json.str "00204c")])))
        "--theme-surface" ≠ none :=
  ⟨rfl, rfl, rfl, fun h => Option.noConfusion h⟩

/-- C5 amended: applyTheme is a merge by key presence, not a full overwrite:
after applying a variable set, a variable named in the set holds the value of
its last entry in that set, and a variable not named in the set keeps its
prior value.  The visible root therefore equals the most recent complete set
only when that set covers every previously written key; otherwise earlier
sources remain visible key-wise alongside the new one. -/
theorem c5_applyTheme_merges_by_key (root : Root) (vars : List (String × Json)) (k : String) :
    applyVars root vars k =
      match vars.reverse.find? (fun p => p.1 == k) with
      | some p => some p.2
      | none => root k := by
  induction vars generalizing root with
  | nil => rfl
  | cons p rest ih =>
      show applyVars (setProp root p.1 p.2) rest k = _
      rw [ih]
      rw [List.reverse_cons, List.find?_append]
      cases hfind : rest.reverse.find? (fun q => q.1 == k) with
      | some q => rfl
      | none =>
          by_cases hpk : p.1 = k
          · subst hpk
            simp [List.find?, setProp]
          · have hb : (p.1 == k) = false := by
              simp [hpk]
            simp only [List.find?, hb, setProp, Option.none_or]
            rw [if_neg (fun h => hpk h.symm)]

/-- C7 counterexample: a document already containing a foreign element with the
reserved id is not reused: createCTAButton creates a second element with the
same id, and calling it twice still leaves two, refuting both the exactly-one
and the reuse clause. -/
theorem c7_counterexample :
    countCta (createCTAButtonSt foreignCtaState) = 2 ∧
    countCta (createCTAButtonSt (createCTAButtonSt foreignCtaState)) = 2 ∧
    ¬ countCta (createCTAButtonSt (createCTAButtonSt foreignCtaState)) = 1 := by
  refine ⟨rfl, rfl, ?_⟩
  intro h
  rw [show countCta (createCTAButtonSt (createCTAButtonSt foreignCtaState)) = 2 from rfl] at h
  exact absurd h (by decide)

theorem aux_createCTA_fields (st : CtaState) :
    (createCTAButtonSt st).docElems
        = removeRef st.docElems st.ctaButton ++ [⟨st.fresh, ctaId⟩] ∧
    (createCTAButtonSt st).ctaButton = some st.fresh ∧
    (createCTAButtonSt st).fresh = st.fresh + 2 ∧
    (createCTAButtonSt st).resizeListener = some (st.fresh + 1) ∧
    (createCTAButtonSt st).windowListeners
        = removeListener st.windowListeners st.resizeListener ++ [st.fresh + 1] :=
  ⟨rfl, rfl, rfl, rfl, rfl⟩

theorem aux_destroy_fields (st : CtaState) :
    (destroySt st).docElems = removeRef st.docElems st.ctaButton ∧
    (destroySt st).ctaButton = none ∧
    (destroySt st).resizeListener = st.resizeListener ∧
    (destroySt st).windowListeners = st.windowListeners :=
  ⟨rfl, rfl, rfl, rfl⟩

theorem aux_clean_props (doc : List Elem) (cb : Option Nat) (n : Nat)
    (hno : ∀ e ∈ doc, e.idAttr ≠ ctaId) (hfresh : ∀ e ∈ doc, e.ident < n) :
    ∀ e ∈ removeRef doc cb, e.idAttr ≠ ctaId ∧ e.ident < n := by
  intro e he
  have hmem : e ∈ doc := by
    cases cb with
    | none => exact he
    | some r => exact (List.mem_filter.mp he).1
  exact ⟨hno e hmem, hfresh e hmem⟩

theorem aux_removeRef_append_btn (d0 : List Elem) (n : Nat)
    (hlt : ∀ e ∈ d0, e.ident < n) (b : Elem) (hb : b.ident = n) :
    removeRef (d0 ++ [b]) (some n) = d0 := by
  show (d0 ++ [b]).filter (fun (e : Elem) => e.ident != n) = d0
  rw [List.filter_append]
  have h1 : d0.filter (fun (e : Elem) => e.ident != n) = d0 := by
    rw [List.filter_eq_self]
    intro a ha
    have := hlt a ha
    simp only [bne_iff_ne, ne_eq]
    omega
  have h2 : [b].filter (fun (e : Elem) => e.ident != n) = [] := by
    simp [List.filter_cons, hb]
  rw [h1, h2, List.append_nil]

theorem aux_countCta_clean_append (d0 : List Elem)
    (hno : ∀ e ∈ d0, e.idAttr ≠ ctaId) (b : Elem) (hb : b.idAttr = ctaId) :
    ((d0 ++ [b]).filter (fun (e : Elem) => e.idAttr == ctaId)).length = 1 := by
  rw [List.filter_append]
  have h1 : d0.filter (fun (e : Elem) => e.idAttr == ctaId) = [] := by
    rw [List.filter_eq_nil_iff]
    intro a ha
    simp only [beq_iff_eq]
    exact hno a ha
  rw [h1, List.nil_append]
  simp [List.filter_cons, hb]

/-- C7 amended: on the cited engine copy there is no document-level guard and
no reuse: createCTAButton removes the element its own reference points to and
creates a brand new element on every call.  Starting from a document with no
element carrying the reserved id, one call leaves exactly one such element,
and a second call removes the first button and creates another, again leaving
exactly one; after the second call the engine references a freshly created
element (identity st.fresh + 2), never a reused one.  A pre-existing foreign
element with the reserved id is not reused and leads to a duplicate (see the
counterexample). -/
theorem c7_create_removes_then_recreates (st : CtaState)
    (hno : ∀ e ∈ st.docElems, e.idAttr ≠ ctaId)
    (hfresh : ∀ e ∈ st.docElems, e.ident < st.fresh) :
    countCta (createCTAButtonSt st) = 1 ∧
    countCta (createCTAButtonSt (createCTAButtonSt st)) = 1 ∧
    (createCTAButtonSt (createCTAButtonSt st)).ctaButton = some (st.fresh + 2) := by
  obtain ⟨hdoc1, hcb1, hfr1, -, -⟩ := aux_createCTA_fields st
  have hclean := aux_clean_props st.docElems st.ctaButton st.fresh hno hfresh
  have hcount1 : countCta (createCTAButtonSt st) = 1 := by
    unfold countCta
    rw [hdoc1]
    exact aux_countCta_clean_append _ (fun e he => (hclean e he).1) _ rfl
  obtain ⟨hdoc2, hcb2, -, -, -⟩ := aux_createCTA_fields (createCTAButtonSt st)
  rw [hcb1, hdoc1, hfr1] at hdoc2
  rw [aux_removeRef_append_btn _ st.fresh (fun e he => (hclean e he).2) _ rfl] at hdoc2
  have hcount2 : countCta (createCTAButtonSt (createCTAButtonSt st)) = 1 := by
    unfold countCta
    rw [hdoc2]
    exact aux_countCta_clean_append _ (fun e he => (hclean e he).1) _ rfl
  exact ⟨hcount1, hcount2, by rw [hcb2, hfr1]⟩

/-- Witness for the C7 theorem: a clean one-element document. -/
theorem c7_witness :
    countCta (createCTAButtonSt ⟨[⟨0, "site-header"⟩], 1, none, none, []⟩) = 1 ∧
    countCta (createCTAButtonSt (createCTAButtonSt ⟨[⟨0, "site-header"⟩], 1, none, none, []⟩)) = 1 ∧
    (createCTAButtonSt (createCTAButtonSt ⟨[⟨0, "site-header"⟩], 1, none, none, []⟩)).ctaButton
      = some 3 :=
  c7_create_removes_then_recreates ⟨[⟨0, "site-header"⟩], 1, none, none, []⟩
    (by decide) (by decide)

/-- C9 counterexample: create the button in an empty document, then destroy.
The registered window resize handler (identity 1) is still registered after
destroy, refuting the claim that destruction deregisters it. -/
theorem c9_counterexample :
    (destroySt (createCTAButtonSt emptyCtaState)).windowListeners = [1] ∧
    ¬ (destroySt (createCTAButtonSt emptyCtaState)).windowListeners = [] := by
  refine ⟨rfl, ?_⟩
  intro h
  rw [show (destroySt (createCTAButtonSt emptyCtaState)).windowListeners = [1] from rfl] at h
  exact absurd h (by decide)

/-- C9 amended: destroy removes the CTA button element from the document and
clears the held reference, but it does not deregister the window resize
listener registered when the button was created: the handler (and the stored
this.resizeListener reference) survive destruction, and the window listener
list after destroy is exactly what it was before. -/
theorem c9_destroy_keeps_resize_listener (st : CtaState)
    (hno : ∀ e ∈ st.docElems, e.idAttr ≠ ctaId)
    (hfresh : ∀ e ∈ st.docElems, e.ident < st.fresh) :
    countCta (destroySt (createCTAButtonSt st)) = 0 ∧
    (destroySt (createCTAButtonSt st)).ctaButton = none ∧
    (destroySt (createCTAButtonSt st)).resizeListener = some (st.fresh + 1) ∧
    (destroySt (createCTAButtonSt st)).windowListeners
      = (createCTAButtonSt st).windowListeners ∧
    st.fresh + 1 ∈ (destroySt (createCTAButtonSt st)).windowListeners := by
  obtain ⟨hdoc1, hcb1, -, hrl1, hwl1⟩ := aux_createCTA_fields st
  have hclean := aux_clean_props st.docElems st.ctaButton st.fresh hno hfresh
  obtain ⟨hdocD, hcbD, hrlD, hwlD⟩ := aux_destroy_fields (createCTAButtonSt st)
  rw [hcb1, hdoc1] at hdocD
  rw [aux_removeRef_append_btn _ st.fresh (fun e he => (hclean e he).2) _ rfl] at hdocD
  refine ⟨?_, hcbD, by rw [hrlD, hrl1], hwlD, ?_⟩
  · unfold countCta
    rw [hdocD]
    have hnil : (removeRef st.docElems st.ctaButton).filter
        (fun (e : Elem) => e.idAttr == ctaId) = [] := by
      rw [List.filter_eq_nil_iff]
      intro a ha
      simp only [beq_iff_eq]
      exact (hclean a ha).1
    rw [hnil]
    rfl
  · rw [hwlD, hwl1]
    exact List.mem_append_right _ (List.mem_singleton.mpr rfl)

/-- Witness for the C9 theorem: create then destroy in an empty document; the
resize handler with identity 1 remains registered. -/
theorem c9_witness :
    countCta (destroySt (createCTAButtonSt emptyCtaState)) = 0 ∧
    (destroySt (createCTAButtonSt emptyCtaState)).ctaButton = none ∧
    (destroySt (createCTAButtonSt emptyCtaState)).resizeListener = some 1 ∧
    (destroySt (createCTAButtonSt emptyCtaState)).windowListeners
      = (createCTAButtonSt emptyCtaState).windowListeners ∧
    1 ∈ (destroySt (createCTAButtonSt emptyCtaState)).windowListeners :=
  c9_destroy_keeps_resize_listener emptyCtaState (by decide) (by decide)

theorem aux_cssRules_data (rules : List (String × StylingRule)) :
    ∀ init : String,
      (rules.foldl (fun acc p => acc ++ ruleBlock p.2) init).data
        = init.data ++ (rules.map (fun p => (ruleBlock p.2).data)).flatten := by
  induction rules with
  | nil =>
      intro init
      simp
  | cons r t ih =>
      intro init
      simp only [List.foldl_cons, List.map_cons, List.flatten_cons]
      rw [ih (init ++ ruleBlock r.2)]
      simp [String.data_append, List.append_assoc]

/-- C8 counterexample: for the API rule mapping targeting every button element,
applyIntelligentStylingRules emits the selector verbatim; the generated
stylesheet does not even mention the reserved CTA identifier, so the
generated rule does not exclude the CTA button either as target or as
descendant: the rule matches the CTA button element itself. -/
theorem c8_counterexample :
    applyIntelligentStylingCSS c8Rules
      = "button \x7b\n  background: red !important;\n\x7d\n\n" ∧
    ¬ (("#" ++ ctaId).data <:+: (applyIntelligentStylingCSS c8Rules).data) := by
  constructor
  · rfl
  · decide

/-- C8 amended: the container-styling injector (applyStylingRules with its
warning/secondary handlers) hard-codes exclusions of the reserved CTA id in
its own selectors, but applyIntelligentStylingRules does not: every API-named
rule with a truthy selector is emitted with that selector verbatim as the
rule target, and no CTA-button exclusion is added by the injector.  The
theorem shows the verbatim pass-through: the API selector, followed by the
opening of the rule block, occurs literally in the generated stylesheet. -/
theorem c8_api_selector_emitted_verbatim (rules : List (String × StylingRule))
    (name : String) (rule : StylingRule) (sel : String)
    (hmem : (name, rule) ∈ rules) (hsel : rule.selector = some sel) (hne : sel ≠ "") :
    (sel ++ " \x7b\n").data <:+: (applyIntelligentStylingCSS rules).data := by
  have hB : ¬ ((sel == "") = true) := by simp [hne]
  have hinfix1 : (sel ++ " \x7b\n").data <:+: (ruleBlock rule).data := by
    unfold ruleBlock
    rw [hsel]
    simp only [if_neg hB]
    refine ⟨[], (cssDecl "background" rule.background).data
      ++ (cssDecl "color" rule.textColor).data
      ++ ((cssDecl "border-color" rule.borderColor).data ++ ("\x7d\n\n").data), ?_⟩
    simp [String.data_append, List.append_assoc]
  have hmemmap : (ruleBlock rule).data ∈ rules.map (fun p => (ruleBlock p.2).data) :=
    List.mem_map_of_mem (fun p : String × StylingRule => (ruleBlock p.2).data) hmem
  have hflat : (ruleBlock rule).data <:+: (rules.map (fun p => (ruleBlock p.2).data)).flatten :=
    List.infix_of_mem_flatten hmemmap
  have hcss : (applyIntelligentStylingCSS rules).data
      = (rules.map (fun p => (ruleBlock p.2).data)).flatten := by
    unfold applyIntelligentStylingCSS
    rw [aux_cssRules_data rules ""]
    rfl
  rw [hcss]
  exact hinfix1.trans hflat

/-- Witness for the C8 theorem: the button-targeting rule is emitted with its
selector verbatim. -/
theorem c8_witness :
    ("button" ++ " \x7b\n").data <:+: (applyIntelligentStylingCSS c8Rules).data :=
  c8_api_selector_emitted_verbatim c8Rules "highlight_buttons"
    ⟨some "button", some "red", none, none⟩ "button" (by decide) rfl (by decide)

/-- C10 (code bug): the fetch call of fetchThemeData records the 10 second
bound only as a nonstandard timeout member of the options object; timeout is
not a RequestInit member the fetch standard defines, and no abort signal is
passed, so nothing cancels the in-flight request when the bound is exceeded.
The fixed engine variant in the repository instead passes an AbortController
signal (and no timeout member), its header listing the AbortController
timeout among its fixes, which is the enforcement-by-cancellation the claim
describes. -/
theorem c10_timeout_flag_without_cancellation :
    themeFetchInit.timeout = some 10000 ∧
    themeFetchInit.signal = none ∧
    "timeout" ∉ standardFetchInitMembers ∧
    (fixedThemeFetchInit 0).signal = some 0 ∧
    (fixedThemeFetchInit 0).timeout = none :=
  ⟨rfl, rfl, by decide, rfl, rfl⟩

end Cividis
